import Mathlib

/-!
Shallow embedding of the SSH tunnel subsystem of the `redistal` repository
(`src-tauri/src/ssh_tunnel.rs`), together with theorems settling the frozen
claims about it.

The Rust code performs real network I/O; the embedding replaces each
effectful primitive (TCP connect, SSH handshake, authentication calls,
`TcpListener::bind`, socket/channel reads and writes, `channel.eof()`) by a
result drawn from an explicit environment record, and the functions are
translated statement by statement from the source, recording the externally
visible actions they perform in a trace.  Paths are modelled as `List Char`
because the code computes on them (`starts_with("~/")`, `&path[2..]`); all
other strings are opaque `String`s.  The `format!`-built error strings of
the source are modelled by an inductive with one constructor per distinct
format string, carrying the data interpolated into it.
-/

namespace Redistal

/-- A filesystem path, `str`/`PathBuf` in the source, modelled as its
character list because `expand_path` computes on it. -/
abbrev Path := List Char

/-- `SshAuthMethod` from `redis_client.rs`: the two authentication methods. -/
inductive SshAuthMethod
  | password
  | privateKey
deriving DecidableEq, Repr

/-- `SshTunnelConfig` from `redis_client.rs` (the fields `ssh_tunnel.rs`
reads).  `local_port : Option Nat` models `Option<u16>`. -/
structure SshTunnelConfig where
  ssh_host : String
  ssh_port : Nat
  ssh_username : String
  auth_method : SshAuthMethod
  ssh_password : Option String
  ssh_private_key_path : Option Path
  ssh_passphrase : Option String
  local_port : Option Nat
deriving DecidableEq, Repr

/-- The distinct error cases of `ssh_tunnel.rs`, one constructor per
`format!`/literal error string in the source, carrying the interpolated
data that matters.  The spec's taxonomy names map onto these:
`ConnectFailed` = `connectFailed`, `HandshakeFailed` = `handshakeFailed`,
`AuthFailed` = `passwordRequired`/`passwordAuthFailed`/`keyAuthFailed`/
`authCheckFailed`, `KeyNotFound` = `keyNotFound`, `ProbeFailed` =
`probeFailed`, `BindFailed` = `bindFailed`. -/
inductive SshError
  | connectFailed                 -- "SSH connection failed: {e}"
  | sessionCreateFailed           -- "SSH session creation failed: {e}"
  | handshakeFailed               -- "SSH handshake failed: {e}"
  | passwordRequired              -- "SSH password required"
  | passwordAuthFailed            -- "SSH authentication failed: {e}"
  | keyPathRequired               -- "SSH private key path required"
  | keyNotFound (path : Path)     -- "SSH private key file not found: {path}"
  | keyAuthFailed                 -- "SSH key authentication failed: {e}"
  | authCheckFailed               -- "SSH authentication failed"
  | probeFailed                   -- "SSH tunnel probe failed to reach ..."
  | bindFailed (port : Nat)       -- "Failed to bind local tunnel port {port}: {e}"
deriving DecidableEq, Repr

/-- The part of an `ssh2::Session` the claims observe: the value its
`authenticated()` query reports. -/
structure Session where
  authenticated : Bool
deriving DecidableEq, Repr

/-- Environment for `create_ssh_session`: the outcome of each effectful
primitive it invokes, plus the `HOME` variable and the filesystem. -/
structure SshEnv where
  connectOk : Bool                -- `TcpStream::connect` succeeds
  sessionNewOk : Bool             -- `Session::new` succeeds
  handshakeOk : Bool              -- `session.handshake()` succeeds
  passwordAuthOk : Bool           -- `userauth_password` succeeds
  pubkeyAuthOk : Bool             -- `userauth_pubkey_file` succeeds
  pathExists : Path → Bool        -- `expanded_path.exists()`
  home : Option Path              -- `std::env::var_os("HOME")`
  authenticated : Bool            -- what `session.authenticated()` reports

/-- The externally visible actions `create_ssh_session` performs, in
program order. -/
inductive SshAction
  | connect (host : String) (port : Nat)
  | handshake
  | passwordAuth (user : String) (pw : String)
  | pubkeyAuth (user : String) (keyPath : Path) (passphrase : Option String)
  | checkAuthenticated
deriving DecidableEq, Repr

/-- `expand_path` from `ssh_tunnel.rs`: expand a leading `~/` against
`HOME` when `HOME` is set, otherwise return the path unchanged.
(`PathBuf::push` separator normalization is abstracted to inserting one
`/`.) -/
def expand_path (home : Option Path) (path : Path) : Path :=
  match path with
  | '~' :: '/' :: rest =>
    match home with
    | some h => h ++ '/' :: rest
    | none => path
  | _ => path

/-- The tail of `create_ssh_session` after the `match config.auth_method`:
the explicit `session.authenticated()` check, then `Ok(session)`. -/
def finish_auth (env : SshEnv) (t : List SshAction) :
    Except SshError Session × List SshAction :=
  let t1 := t ++ [SshAction.checkAuthenticated]
  if env.authenticated then (.ok { authenticated := env.authenticated }, t1)
  else (.error .authCheckFailed, t1)

/-- `create_ssh_session` from `ssh_tunnel.rs`, returning its result
together with the trace of actions performed.  Mirrors the source:
connect, `Session::new`, handshake, then authenticate by the configured
method, then the explicit `authenticated()` check. -/
def create_ssh_session (env : SshEnv) (config : SshTunnelConfig) :
    Except SshError Session × List SshAction :=
  let t0 := [SshAction.connect config.ssh_host config.ssh_port]
  if ¬ env.connectOk then (.error .connectFailed, t0)
  else if ¬ env.sessionNewOk then (.error .sessionCreateFailed, t0)
  else
    let t1 := t0 ++ [SshAction.handshake]
    if ¬ env.handshakeOk then (.error .handshakeFailed, t1)
    else
      match config.auth_method with
      | .password =>
        match config.ssh_password with
        | none => (.error .passwordRequired, t1)
        | some pw =>
          let t2 := t1 ++ [SshAction.passwordAuth config.ssh_username pw]
          if ¬ env.passwordAuthOk then (.error .passwordAuthFailed, t2)
          else finish_auth env t2
      | .privateKey =>
        match config.ssh_private_key_path with
        | none => (.error .keyPathRequired, t1)
        | some kp =>
          let expanded := expand_path env.home kp
          if ¬ env.pathExists expanded then
            (.error (.keyNotFound expanded), t1)
          else
            let t2 := t1 ++
              [SshAction.pubkeyAuth config.ssh_username expanded
                config.ssh_passphrase]
            if ¬ env.pubkeyAuthOk then (.error .keyAuthFailed, t2)
            else finish_auth env t2

/-- Whether an action is an authentication attempt (either method). -/
def SshAction.isAuth : SshAction → Bool
  | .passwordAuth _ _ => true
  | .pubkeyAuth _ _ _ => true
  | _ => false

/-! ## Local port allocation (`find_available_port`, step 3–4 of `SshTunnel::new`) -/

/-- Events on local listening sockets, in program order: a successful
`TcpListener::bind` of a port, a failed bind attempt, and the drop
(release) of a bound listener. -/
inductive SockEvent
  | bindOk (p : Nat)
  | bindFail (p : Nat)
  | release (p : Nat)
deriving DecidableEq, Repr

/-- Environment for local binds: which nonzero ports
`TcpListener::bind("127.0.0.1:{p}")` can bind, and which OS-chosen port a
bind of port `0` yields (`none` when even that fails). -/
structure NetEnv where
  bindable : Nat → Bool
  bind0 : Option Nat

/-- The scan `(9000..10000).find(|port| TcpListener::bind(..).is_ok())`
over an explicit port list, with its socket events: each successful test
bind is immediately released, because `is_ok()` consumes and drops the
temporary `TcpListener`. -/
def scan_ports (bindable : Nat → Bool) : List Nat → List SockEvent × Option Nat
  | [] => ([], none)
  | p :: ps =>
    if bindable p then ([SockEvent.bindOk p, SockEvent.release p], some p)
    else
      let r := scan_ports bindable ps
      (SockEvent.bindFail p :: r.1, r.2)

/-- `find_available_port` from `ssh_tunnel.rs`: scan ports 9000–9999 for
the first that is bindable, releasing each test socket. -/
def find_available_port (bindable : Nat → Bool) :
    List SockEvent × Option Nat :=
  scan_ports bindable (List.range' 9000 1000)

/-- `TcpListener::bind("127.0.0.1:{p}")`: for a nonzero port, binds that
port iff it is free; for port `0`, TCP semantics make the OS choose an
ephemeral port.  Returns the port actually bound. -/
def bindPort (net : NetEnv) (p : Nat) : Option Nat :=
  if p = 0 then net.bind0
  else if net.bindable p then some p else none

/-! ## `SshTunnel::new` and the tunnel handle -/

/-- The `SshTunnel` struct: the stored local port (what `local_port()`
returns) and the value of the `stop_signal` atomic. -/
structure SshTunnel where
  local_port : Nat
  stop_signal : Bool
deriving DecidableEq, Repr

/-- What `SshTunnel::new` left behind when it returned: the action trace
of the validation session, the local-socket events, the port of a listener
still bound at return (held by the accept task on success), and whether
the background accept task was spawned. -/
structure CreateState where
  sshTrace : List SshAction
  sockEvents : List SockEvent
  boundAtReturn : Option Nat
  taskSpawned : Bool
deriving DecidableEq, Repr

/-- Environment for `SshTunnel::new`: the SSH environment, the local bind
environment, and whether the probe `channel_direct_tcpip(remote_host,
remote_port)` on the validation session succeeds. -/
structure TunnelEnv where
  ssh : SshEnv
  net : NetEnv
  probeOk : Bool

/-- `SshTunnel::new` from `ssh_tunnel.rs`: create and authenticate a
validation session, probe reachability of the target through it (then
close the probe channel and drop the session), choose the local port
(`config.local_port` or else `find_available_port().unwrap_or(9000)`),
bind it, spawn the forwarding task, and return the handle with
`stop_signal` freshly `false`. -/
def SshTunnel.new (env : TunnelEnv) (config : SshTunnelConfig) :
    Except SshError SshTunnel × CreateState :=
  match create_ssh_session env.ssh config with
  | (.error e, tr) => (.error e, ⟨tr, [], none, false⟩)
  | (.ok _, tr) =>
    if ¬ env.probeOk then (.error .probeFailed, ⟨tr, [], none, false⟩)
    else
      let scanned : List SockEvent × Option Nat :=
        match config.local_port with
        | some _ => ([], none)
        | none => find_available_port env.net.bindable
      let lp : Nat :=
        match config.local_port with
        | some p => p
        | none => scanned.2.getD 9000
      match bindPort env.net lp with
      | none =>
        (.error (.bindFailed lp),
         ⟨tr, scanned.1 ++ [SockEvent.bindFail lp], none, false⟩)
      | some actual =>
        (.ok { local_port := lp, stop_signal := false },
         ⟨tr, scanned.1 ++ [SockEvent.bindOk actual], some actual, true⟩)

/-! ## The stop flag (`stop_signal: Arc<AtomicBool>`) -/

/-- The operations the program performs on `stop_signal` after creation:
the accept loop's `load(Ordering::SeqCst)` and the `Drop` impl's
`store(true, Ordering::SeqCst)`.  No code path stores `false`. -/
inductive StopOp
  | load
  | storeTrue
deriving DecidableEq, Repr

/-- Effect of one `stop_signal` operation on the flag's value. -/
def applyStopOp : Bool → StopOp → Bool
  | b, .load => b
  | _, .storeTrue => true

/-- The flag value after a sequence of operations from an initial value. -/
def runStopOps (init : Bool) (ops : List StopOp) : Bool :=
  ops.foldl applyStopOp init

/-- Number of `false → true` transitions of the flag along a sequence of
operations. -/
def risingEdges : Bool → List StopOp → Nat
  | _, [] => 0
  | b, op :: ops =>
    let b' := applyStopOp b op
    (if b = false ∧ b' = true then 1 else 0) + risingEdges b' ops

/-- `Drop for SshTunnel`: store `true` into the stop flag. -/
def SshTunnel.drop (t : SshTunnel) : SshTunnel × StopOp :=
  ({ t with stop_signal := true }, StopOp.storeTrue)

/-! ## The accept loop (`start_forwarding`) -/

/-- Result of one `listener.accept()` call: a new connection, a
`WouldBlock` error, or any other error. -/
inductive AcceptRes
  | conn
  | wouldBlock
  | err
deriving DecidableEq, Repr

/-- Why the accept loop's `loop` exited. -/
inductive AcceptExit
  | stopped       -- `stop_signal` observed `true`
  | acceptError   -- `accept()` returned a non-`WouldBlock` error
deriving DecidableEq, Repr

/-- Observable state of the accept-loop thread: iteration counter, number
of forwarder threads spawned, and whether the listener (moved into the
thread closure) is still held (it is dropped when the closure returns). -/
structure LoopState where
  iter : Nat
  spawned : Nat
  listenerHeld : Bool
deriving DecidableEq, Repr

/-- The `loop` body of `start_forwarding`, fuel-bounded: check the stop
flag (value at this iteration given by `stopVal`); then `accept()` — on a
connection spawn a forwarder and continue, on `WouldBlock` sleep and
continue, on any other error break.  Exiting the loop returns from the
thread closure, dropping (releasing) the listener.  `none` means the loop
is still running after `fuel` iterations. -/
def start_forwarding_loop (stopVal : Nat → Bool) (accepts : Nat → AcceptRes) :
    Nat → LoopState → Option (AcceptExit × LoopState)
  | 0, _ => none
  | fuel + 1, st =>
    if stopVal st.iter then some (.stopped, { st with listenerHeld := false })
    else
      match accepts st.iter with
      | .conn =>
        start_forwarding_loop stopVal accepts fuel
          { st with iter := st.iter + 1, spawned := st.spawned + 1 }
      | .wouldBlock =>
        start_forwarding_loop stopVal accepts fuel
          { st with iter := st.iter + 1 }
      | .err => some (.acceptError, { st with listenerHeld := false })

/-- `start_forwarding` spawns the loop thread and discards its
`JoinHandle`: the loop's exit reason is never communicated back to the
`SshTunnel` owner (the function returns unit). -/
def start_forwarding (_loopExit : Option (AcceptExit × LoopState)) : Unit := ()

/-! ## The pump loop (`copy_bidirectional`) -/

/-- Result of one `stream.read(&mut stream_buf)` call.  `bytes []` is
`Ok(0)` (the local peer closed); `bytes bs` with `bs ≠ []` is `Ok(n)`
delivering those bytes. -/
inductive StreamReadRes
  | bytes (bs : List Nat)
  | wouldBlock
  | fatal
deriving DecidableEq, Repr

/-- Result of one `channel.read(&mut channel_buf)` call.  `eagainErr` is a
generic error whose message contains `EAGAIN` or `would block`, which the
code treats like `WouldBlock`. -/
inductive ChanReadRes
  | bytes (bs : List Nat)
  | wouldBlock
  | eagainErr
  | fatal
deriving DecidableEq, Repr

/-- Result of one `write_all` call on either side. -/
inductive WriteRes
  | ok
  | wouldBlock
  | fatal
deriving DecidableEq, Repr

/-- Environment for the pump loop: the result of the i-th call of each
effectful primitive (local-stream read, channel read, `channel.eof()`,
`stream.write_all`, `channel.write_all`). -/
structure PumpEnv where
  streamRead : Nat → StreamReadRes
  chanRead : Nat → ChanReadRes
  chanEof : Nat → Bool
  streamWrite : Nat → WriteRes
  chanWrite : Nat → WriteRes

/-- Externally visible events of the pump loop, in program order. -/
inductive PumpEvent
  | setBlocking (b : Bool)     -- `session.set_blocking(b)`
  | wroteChan (bs : List Nat)  -- `channel.write_all(&stream_buf[..n])` succeeded
  | wroteStream (bs : List Nat) -- `stream.write_all(&channel_buf[..n])` succeeded
  | sentEof                     -- `channel.send_eof()`
  | closedChan                  -- `channel.close()`
  | waitedClose                 -- `channel.wait_close()`
  | slept (ms : Nat)            -- `thread::sleep(ms)`
deriving DecidableEq, Repr

/-- State of the pump loop: call counters for each primitive, the
`idle_count` variable, and the event log. -/
structure PumpSt where
  sr : Nat
  cr : Nat
  ce : Nat
  sw : Nat
  cw : Nat
  idle : Nat
  log : List PumpEvent
deriving DecidableEq, Repr

/-- How `copy_bidirectional` terminated. -/
inductive PumpRes
  | ok        -- `return Ok(())`
  | ioError   -- `return Err(..)`
  | fuelOut   -- still looping after the given fuel
deriving DecidableEq, Repr

/-- Outcome of one loop iteration: terminate with a result, or go round
again. -/
inductive IterRes
  | done (r : PumpRes)
  | next
deriving DecidableEq, Repr

/-- Tail of one pump iteration (lines 291–300 of `ssh_tunnel.rs`): the
`if channel.eof() return Ok(())` check, then, if no progress was made,
increment `idle_count` and sleep 10 ms when `idle_count > 100`, else
1 ms. -/
def pumpTail (env : PumpEnv) (st0 : PumpSt) (progress : Bool) :
    IterRes × PumpSt :=
  let eofNow := env.chanEof st0.ce
  let st1 := { st0 with ce := st0.ce + 1 }
  if eofNow then (.done .ok, st1)
  else if progress then (.next, st1)
  else
    let st2 := { st1 with idle := st1.idle + 1 }
    let ms := if st2.idle > 100 then 10 else 1
    (.next, { st2 with log := st2.log ++ [PumpEvent.slept ms] })

/-- Second direction of one pump iteration (lines 266–289): read from the
SSH channel; on `Ok(0)` return cleanly if `channel.eof()`; on `Ok(n)`
`write_all` the `n` bytes to the local stream (which stays non-blocking) —
a write failure aborts with an error — and record progress; `WouldBlock`
and EAGAIN-style errors do nothing; any other error aborts. -/
def pumpDir2 (env : PumpEnv) (st0 : PumpSt) (progress : Bool) :
    IterRes × PumpSt :=
  let r := env.chanRead st0.cr
  let st1 := { st0 with cr := st0.cr + 1 }
  match r with
  | .bytes [] =>
    let eofNow := env.chanEof st1.ce
    let st2 := { st1 with ce := st1.ce + 1 }
    if eofNow then (.done .ok, st2) else pumpTail env st2 progress
  | .bytes bs =>
    let st2 := { st1 with sw := st1.sw + 1 }
    match env.streamWrite st1.sw with
    | .ok =>
      pumpTail env
        { st2 with log := st2.log ++ [PumpEvent.wroteStream bs], idle := 0 }
        true
    | _ => (.done .ioError, st2)
  | .wouldBlock => pumpTail env st1 progress
  | .eagainErr => pumpTail env st1 progress
  | .fatal => (.done .ioError, st1)

/-- One full iteration of the pump loop (lines 237–300).  First direction
(lines 240–264): read from the local stream; on `Ok(0)` send EOF on the
channel, close it, wait for close, and return `Ok(())` immediately; on
`Ok(n)` set the session blocking, `write_all` the `n` bytes to the channel
(a failure aborts), flush, set non-blocking again, record progress;
`WouldBlock` does nothing; any other error aborts.  Then the second
direction and the tail. -/
def pumpIter (env : PumpEnv) (st0 : PumpSt) : IterRes × PumpSt :=
  let r := env.streamRead st0.sr
  let st1 := { st0 with sr := st0.sr + 1 }
  match r with
  | .bytes [] =>
    (.done .ok,
     { st1 with
        log := st1.log ++
          [PumpEvent.sentEof, PumpEvent.closedChan, PumpEvent.waitedClose] })
  | .bytes bs =>
    let st2 := { st1 with
      log := st1.log ++ [PumpEvent.setBlocking true], cw := st1.cw + 1 }
    match env.chanWrite st1.cw with
    | .ok =>
      pumpDir2 env
        { st2 with
            log := st2.log ++
              [PumpEvent.wroteChan bs, PumpEvent.setBlocking false],
            idle := 0 }
        true
    | _ => (.done .ioError, st2)
  | .wouldBlock => pumpDir2 env st1 false
  | .fatal => (.done .ioError, st1)

/-- The pump loop, fuel-bounded. -/
def pumpLoop (env : PumpEnv) : Nat → PumpSt → PumpRes × PumpSt
  | 0, st => (.fuelOut, st)
  | fuel + 1, st =>
    match pumpIter env st with
    | (.done r, st1) => (r, st1)
    | (.next, st1) => pumpLoop env fuel st1

/-- Initial pump state: all counters zero, empty log. -/
def initPumpSt : PumpSt := ⟨0, 0, 0, 0, 0, 0, []⟩

/-- `copy_bidirectional` from `ssh_tunnel.rs` (fuel-bounded): set the
stream non-blocking, then run the pump loop from the initial state. -/
def copy_bidirectional (env : PumpEnv) (fuel : Nat) : PumpRes × PumpSt :=
  pumpLoop env fuel initPumpSt

/-- The bytes delivered to the local stream, in order, per the event
log. -/
def streamDeliveries (log : List PumpEvent) : List (List Nat) :=
  log.filterMap fun e =>
    match e with
    | .wroteStream bs => some bs
    | _ => none

/-! ## Concrete environments and configurations used by the witnesses and
counterexamples -/

/-- An SSH environment in which every primitive succeeds. -/
def allOkSsh : SshEnv :=
  { connectOk := true, sessionNewOk := true, handshakeOk := true,
    passwordAuthOk := true, pubkeyAuthOk := true,
    pathExists := fun _ => true, home := some ['/', 'h'],
    authenticated := true }

/-- `allOkSsh` but the resolved key path does not exist. -/
def noKeySsh : SshEnv := { allOkSsh with pathExists := fun _ => false }

/-- `allOkSsh` but `session.authenticated()` reports `false`. -/
def notAuthSsh : SshEnv := { allOkSsh with authenticated := false }

/-- A password-auth configuration with no preferred local port. -/
def pwCfg : SshTunnelConfig :=
  { ssh_host := "bastion", ssh_port := 22, ssh_username := "user",
    auth_method := .password, ssh_password := some "pw",
    ssh_private_key_path := none, ssh_passphrase := none,
    local_port := none }

/-- A private-key configuration whose key path starts with `~/`. -/
def keyCfg : SshTunnelConfig :=
  { pwCfg with
    auth_method := .privateKey
    ssh_password := none
    ssh_private_key_path := some ['~', '/', 'k']
    ssh_passphrase := some "pp" }

/-! ## Claims C6 and C7: session creation -/

/-- Claim C6: with PrivateKey authentication, session creation resolves
the key path by expanding a leading `~/` against the home directory; if
the resolved path does not exist it fails with the key-not-found error
carrying that path, having attempted no authentication; only when the path
exists does it attempt public-key authentication with the optional
passphrase. -/
theorem C6_private_key_resolution (env : SshEnv) (config : SshTunnelConfig)
    (kp : Path)
    (hm : config.auth_method = .privateKey)
    (hk : config.ssh_private_key_path = some kp)
    (hc : env.connectOk = true) (hsn : env.sessionNewOk = true)
    (hh : env.handshakeOk = true) :
    (∀ h rest, kp = '~' :: '/' :: rest → env.home = some h →
        expand_path env.home kp = h ++ '/' :: rest) ∧
    (env.pathExists (expand_path env.home kp) = false →
      (create_ssh_session env config).1 =
          .error (.keyNotFound (expand_path env.home kp)) ∧
      (create_ssh_session env config).2.filter SshAction.isAuth = []) ∧
    (env.pathExists (expand_path env.home kp) = true →
      SshAction.pubkeyAuth config.ssh_username (expand_path env.home kp)
          config.ssh_passphrase ∈ (create_ssh_session env config).2) := by
  refine ⟨?_, ?_, ?_⟩
  · intro h rest hkp hhome
    subst hkp
    simp [expand_path, hhome]
  · intro hpe
    simp [create_ssh_session, hc, hsn, hh, hm, hk, hpe, SshAction.isAuth]
  · intro hpe
    by_cases hka : env.pubkeyAuthOk <;> by_cases hau : env.authenticated <;>
      simp [create_ssh_session, finish_auth, hc, hsn, hh, hm, hk, hpe, hka,
        hau]

/-- Witness for C6 at concrete inputs: with `HOME = /h` and key path
`~/k`, a missing key fails with `keyNotFound /h/k` and no auth attempt,
and an existing key leads to a public-key auth attempt on `/h/k` with the
passphrase. -/
theorem C6_private_key_resolution_witness :
    (create_ssh_session noKeySsh keyCfg).1 =
        .error (.keyNotFound ['/', 'h', '/', 'k']) ∧
    (create_ssh_session noKeySsh keyCfg).2.filter SshAction.isAuth = [] ∧
    SshAction.pubkeyAuth "user" ['/', 'h', '/', 'k'] (some "pp") ∈
      (create_ssh_session allOkSsh keyCfg).2 := by
  have h1 := C6_private_key_resolution noKeySsh keyCfg ['~', '/', 'k']
    rfl rfl rfl rfl rfl
  have h2 := C6_private_key_resolution allOkSsh keyCfg ['~', '/', 'k']
    rfl rfl rfl rfl rfl
  exact ⟨(h1.2.1 rfl).1, (h1.2.1 rfl).2, h2.2.2 rfl⟩

/-- Claim C7: every session returned by `create_ssh_session` reports
authenticated, and whenever the explicit `authenticated()` check runs
(the authentication step itself raised no error) on a session that is not
authenticated, the result is the auth-failed error. -/
theorem C7_authenticated_check (env : SshEnv) (config : SshTunnelConfig) :
    (∀ s, (create_ssh_session env config).1 = .ok s →
      s.authenticated = true) ∧
    (SshAction.checkAuthenticated ∈ (create_ssh_session env config).2 →
      env.authenticated = false →
      (create_ssh_session env config).1 = .error .authCheckFailed) := by
  obtain ⟨host, port, user, am, pwo, kpo, ppo, lpo⟩ := config
  constructor
  · intro s h
    cases am <;> rcases pwo with _ | pw <;> rcases kpo with _ | kp <;>
      simp only [create_ssh_session, finish_auth] at h <;>
      split_ifs at h <;> simp_all <;> subst h <;> rfl
  · intro h1 h2
    cases am <;> rcases pwo with _ | pw <;> rcases kpo with _ | kp <;>
      simp only [create_ssh_session, finish_auth] at h1 ⊢ <;>
      split_ifs <;> simp_all

/-- Witness for C7 at concrete inputs: the all-ok environment returns the
authenticated session, and the not-authenticated environment fails the
explicit check. -/
theorem C7_authenticated_check_witness :
    Session.authenticated ⟨true⟩ = true ∧
    (create_ssh_session notAuthSsh pwCfg).1 = .error .authCheckFailed := by
  have h1 := C7_authenticated_check allOkSsh pwCfg
  have h2 := C7_authenticated_check notAuthSsh pwCfg
  exact ⟨h1.1 ⟨true⟩ rfl, h2.2 (by decide) rfl⟩

/-! ## Facts about the port scan -/

/-- If no port in the list is bindable, the scan finds none. -/
theorem scan_ports_eq_none (bindable : Nat → Bool) (l : List Nat)
    (h : ∀ p ∈ l, bindable p = false) : (scan_ports bindable l).2 = none := by
  induction l with
  | nil => rfl
  | cons q qs ih =>
    have hq : bindable q = false := h q (List.mem_cons_self q qs)
    simp only [scan_ports, hq]
    simpa using ih fun r hr => h r (List.mem_cons_of_mem q hr)

/-- A successful scan returns a bindable port from the list, and its
event trace ends with the test bind of that port immediately followed by
its release. -/
theorem scan_ports_eq_some (bindable : Nat → Bool) (l : List Nat) (p : Nat)
    (h : (scan_ports bindable l).2 = some p) :
    p ∈ l ∧ bindable p = true ∧
    ∃ pre, (scan_ports bindable l).1 =
      pre ++ [SockEvent.bindOk p, SockEvent.release p] := by
  induction l with
  | nil => simp [scan_ports] at h
  | cons q qs ih =>
    by_cases hq : bindable q = true
    · simp only [scan_ports, hq, if_true] at h ⊢
      obtain rfl : q = p := by simpa using h
      exact ⟨List.mem_cons_self q qs, hq, [], by simp⟩
    · simp only [scan_ports, hq, if_false, Bool.false_eq_true] at h ⊢
      obtain ⟨h1, h2, pre, h3⟩ := ih h
      refine ⟨List.mem_cons_of_mem q h1, h2,
        SockEvent.bindFail q :: pre, ?_⟩
      simp [h3]

/-- The scan over `range' s n` returns the first bindable port: every
smaller port in the range is not bindable. -/
theorem scan_ports_range'_first (bindable : Nat → Bool) (n : Nat) :
    ∀ s p, (scan_ports bindable (List.range' s n)).2 = some p →
      ∀ q, s ≤ q → q < p → bindable q = false := by
  induction n with
  | zero => intro s p h; simp [scan_ports] at h
  | succ n ih =>
    intro s p h q hq1 hq2
    rw [List.range'_succ] at h
    by_cases hb : bindable s = true
    · simp [scan_ports, hb] at h
      exfalso
      omega
    · have hb' : bindable s = false := by
        cases hcase : bindable s
        · rfl
        · exact absurd hcase hb
      simp [scan_ports, hb'] at h
      rcases Nat.eq_or_lt_of_le hq1 with heq | hlt
      · rw [← heq]
        exact hb'
      · exact ih (s + 1) p h q hlt hq2

/-- If some port in the list is bindable, the scan finds one. -/
theorem scan_ports_isSome_of_mem (bindable : Nat → Bool) (l : List Nat)
    (h : ∃ p ∈ l, bindable p = true) :
    ∃ p, (scan_ports bindable l).2 = some p := by
  induction l with
  | nil => simp at h
  | cons q qs ih =>
    by_cases hq : bindable q = true
    · exact ⟨q, by simp [scan_ports, hq]⟩
    · obtain ⟨p, hp, hbp⟩ := h
      rcases List.mem_cons.mp hp with rfl | hmem
      · exact absurd hbp hq
      · obtain ⟨r, hr⟩ := ih ⟨p, hmem, hbp⟩
        exact ⟨r, by simpa [scan_ports, hq] using hr⟩

/-- Reduction of `SshTunnel.new` in the scan-and-bind case: session and
probe succeed, no preferred port, the scan found `p`, and `p` (nonzero)
is bindable — then `new` returns the handle for `p`, the socket events
are the scan's events followed by the final (kept) bind of `p`, and the
listener bound at return is on `p`. -/
theorem new_scan_case (env : TunnelEnv) (config : SshTunnelConfig)
    (s : Session) (tr : List SshAction) (p : Nat)
    (hsess : create_ssh_session env.ssh config = (.ok s, tr))
    (hprobe : env.probeOk = true)
    (hlp : config.local_port = none)
    (hfound : (find_available_port env.net.bindable).2 = some p)
    (hpos : p ≠ 0) (hbind : env.net.bindable p = true) :
    (SshTunnel.new env config).1 = .ok ⟨p, false⟩ ∧
    (SshTunnel.new env config).2.sockEvents =
      (find_available_port env.net.bindable).1 ++ [SockEvent.bindOk p] ∧
    (SshTunnel.new env config).2.boundAtReturn = some p := by
  simp [SshTunnel.new, hsess, hprobe, hlp, hfound, bindPort, hpos, hbind]

/-! ## Claims C5 and C8: setup-phase failures -/

/-- Claim C5: every error return of `SshTunnel::new` leaves no listener
bound and no background accept task spawned. -/
theorem C5_no_partial_tunnel (env : TunnelEnv) (config : SshTunnelConfig)
    (e : SshError) (h : (SshTunnel.new env config).1 = .error e) :
    (SshTunnel.new env config).2.boundAtReturn = none ∧
    (SshTunnel.new env config).2.taskSpawned = false := by
  rcases hs : create_ssh_session env.ssh config with ⟨res, tr⟩
  rcases res with e' | s
  · simp [SshTunnel.new, hs]
  · by_cases hp : env.probeOk
    · rcases hlp : config.local_port with _ | p
      · rcases hb : bindPort env.net
            ((find_available_port env.net.bindable).2.getD 9000)
            with _ | actual <;>
          simp_all [SshTunnel.new]
      · rcases hb : bindPort env.net p with _ | actual <;>
          simp_all [SshTunnel.new]
    · simp [SshTunnel.new, hs, hp]

/-- A tunnel environment whose TCP connect to the bastion fails. -/
def noConnectEnv : TunnelEnv :=
  ⟨{ allOkSsh with connectOk := false }, ⟨fun _ => true, none⟩, true⟩

/-- Witness for C5 at a concrete input: a failed bastion connect yields an
error with nothing bound and no task spawned. -/
theorem C5_no_partial_tunnel_witness :
    (SshTunnel.new noConnectEnv pwCfg).2.boundAtReturn = none ∧
    (SshTunnel.new noConnectEnv pwCfg).2.taskSpawned = false :=
  C5_no_partial_tunnel noConnectEnv pwCfg .connectFailed rfl

/-- A tunnel environment in which session creation and the probe succeed
but no local port whatsoever is bindable. -/
def busyEnv : TunnelEnv := ⟨allOkSsh, ⟨fun _ => false, none⟩, true⟩

/-- Claim C8: with no preferred local port, session and probe successful,
and no port in 9000–9999 bindable, `SshTunnel::new` fails with the bind
error on the fallback port 9000 — it does not succeed on a port outside
the range. -/
theorem C8_all_ports_busy_bindFailed (env : TunnelEnv)
    (config : SshTunnelConfig) (s : Session) (tr : List SshAction)
    (hsess : create_ssh_session env.ssh config = (.ok s, tr))
    (hprobe : env.probeOk = true)
    (hlp : config.local_port = none)
    (hbusy : ∀ p, 9000 ≤ p → p < 10000 → env.net.bindable p = false) :
    (SshTunnel.new env config).1 = .error (.bindFailed 9000) := by
  have hnone : (find_available_port env.net.bindable).2 = none := by
    apply scan_ports_eq_none
    intro p hp
    rw [List.mem_range'_1] at hp
    exact hbusy p hp.1 (by omega)
  have h9000 : env.net.bindable 9000 = false := hbusy 9000 le_rfl (by omega)
  simp [SshTunnel.new, hsess, hprobe, hlp, hnone, bindPort, h9000]

/-- Witness for C8 at a concrete input: with every port busy, `new`
returns the bind error on port 9000. -/
theorem C8_all_ports_busy_bindFailed_witness :
    (SshTunnel.new busyEnv pwCfg).1 = .error (.bindFailed 9000) :=
  C8_all_ports_busy_bindFailed busyEnv pwCfg ⟨true⟩
    [SshAction.connect "bastion" 22, SshAction.handshake,
      SshAction.passwordAuth "user" "pw", SshAction.checkAuthenticated]
    rfl rfl rfl (fun _ _ _ => rfl)

/-! ## Claims C1 and C4: port allocation -/

/-- A tunnel environment in which everything succeeds and every local
port is bindable (a bind of port 0 yields the OS-chosen port 50000). -/
def allFreeEnv : TunnelEnv := ⟨allOkSsh, ⟨fun _ => true, some 50000⟩, true⟩

/-- Counterexample to claim C1: with no preferred port and port 9000
free, the allocator's socket events are a test bind of 9000, a release of
9000, and then a second bind of 9000 — the socket bound during the
bindability test is released, and the socket handed to the accept loop
comes from a separate re-bind, so a test-and-release window exists. -/
theorem C1_counterexample :
    (SshTunnel.new allFreeEnv pwCfg).1 = .ok ⟨9000, false⟩ ∧
    (SshTunnel.new allFreeEnv pwCfg).2.sockEvents =
      [SockEvent.bindOk 9000, SockEvent.release 9000,
        SockEvent.bindOk 9000] ∧
    SockEvent.release 9000 ∈ (SshTunnel.new allFreeEnv pwCfg).2.sockEvents :=
  ⟨rfl, rfl, by decide⟩

/-- Claim C1 amended: when no preferred local port is given, the
allocator scans 9000–9999 and selects the first bindable port `p`, but it
only tests bindability: the test socket is released and the listener
handed to the accept loop comes from a second, separate bind of `p`, with
a release/re-bind window in between. -/
theorem C1_amended_scan_release_rebind (env : TunnelEnv)
    (config : SshTunnelConfig) (s : Session) (tr : List SshAction) (p : Nat)
    (hsess : create_ssh_session env.ssh config = (.ok s, tr))
    (hprobe : env.probeOk = true)
    (hlp : config.local_port = none)
    (hfound : (find_available_port env.net.bindable).2 = some p) :
    9000 ≤ p ∧ p < 10000 ∧ env.net.bindable p = true ∧
    (∀ q, 9000 ≤ q → q < p → env.net.bindable q = false) ∧
    (SshTunnel.new env config).1 = .ok ⟨p, false⟩ ∧
    ∃ pre, (SshTunnel.new env config).2.sockEvents =
      pre ++ [SockEvent.bindOk p, SockEvent.release p,
        SockEvent.bindOk p] := by
  obtain ⟨hmem, hbind, pre, hevs⟩ :=
    scan_ports_eq_some env.net.bindable (List.range' 9000 1000) p hfound
  rw [List.mem_range'_1] at hmem
  have hfirst := scan_ports_range'_first env.net.bindable 1000 9000 p hfound
  have hmain := new_scan_case env config s tr p hsess hprobe hlp hfound
    (by omega) hbind
  refine ⟨hmem.1, by omega, hbind, hfirst, hmain.1, pre, ?_⟩
  have hevs' : (find_available_port env.net.bindable).1 =
      pre ++ [SockEvent.bindOk p, SockEvent.release p] := hevs
  rw [hmain.2.1, hevs']
  simp

/-- Witness for the amended C1 at a concrete input: with all ports free,
the handle commits port 9000 and the events show test-bind, release,
re-bind of 9000. -/
theorem C1_amended_scan_release_rebind_witness :
    (SshTunnel.new allFreeEnv pwCfg).1 = .ok ⟨9000, false⟩ ∧
    ∃ pre, (SshTunnel.new allFreeEnv pwCfg).2.sockEvents =
      pre ++ [SockEvent.bindOk 9000, SockEvent.release 9000,
        SockEvent.bindOk 9000] := by
  have h := C1_amended_scan_release_rebind allFreeEnv pwCfg ⟨true⟩
    [SshAction.connect "bastion" 22, SshAction.handshake,
      SshAction.passwordAuth "user" "pw", SshAction.checkAuthenticated]
    9000 rfl rfl rfl rfl
  exact ⟨h.2.2.2.2.1, h.2.2.2.2.2⟩

/-- `pwCfg` with preferred local port 0, a representable `Option<u16>`
value nothing in the code rejects. -/
def zeroPortCfg : SshTunnelConfig := { pwCfg with local_port := some 0 }

/-- Counterexample to claim C4: with preferred local port 0 and a
reachable target, `new` succeeds, but `local_port()` returns 0 — which is
zero and is not the port the listener is actually bound on (the OS-chosen
port 50000). -/
theorem C4_counterexample :
    (SshTunnel.new allFreeEnv zeroPortCfg).1 = .ok ⟨0, false⟩ ∧
    (SshTunnel.new allFreeEnv zeroPortCfg).2.boundAtReturn = some 50000 ∧
    ¬ ((SshTunnel.mk 0 false).local_port ≠ 0 ∧
        (SshTunnel.new allFreeEnv zeroPortCfg).2.boundAtReturn =
          some (SshTunnel.mk 0 false).local_port) := by
  refine ⟨rfl, rfl, fun hcl => hcl.1 rfl⟩

/-- Claim C4 amended: for a valid config with session and probe
succeeding, whose preferred local port is either a nonzero bindable port
or absent with some port in 9000–9999 bindable, `new` succeeds and
`local_port()` is nonzero and is exactly the port the listener is bound
on. -/
theorem C4_amended_local_port (env : TunnelEnv) (config : SshTunnelConfig)
    (s : Session) (tr : List SshAction)
    (hsess : create_ssh_session env.ssh config = (.ok s, tr))
    (hprobe : env.probeOk = true) :
    (∀ p, config.local_port = some p → p ≠ 0 →
      env.net.bindable p = true →
      (SshTunnel.new env config).1 = .ok ⟨p, false⟩ ∧ p ≠ 0 ∧
      (SshTunnel.new env config).2.boundAtReturn = some p) ∧
    (config.local_port = none →
      (∃ q, 9000 ≤ q ∧ q < 10000 ∧ env.net.bindable q = true) →
      ∃ p, (SshTunnel.new env config).1 = .ok ⟨p, false⟩ ∧ p ≠ 0 ∧
        (SshTunnel.new env config).2.boundAtReturn = some p) := by
  constructor
  · intro p hlp hpz hbind
    refine ⟨?_, hpz, ?_⟩ <;>
      simp [SshTunnel.new, hsess, hprobe, hlp, bindPort, hpz, hbind]
  · rintro hlp ⟨q, hq1, hq2, hqb⟩
    obtain ⟨p, hp⟩ := scan_ports_isSome_of_mem env.net.bindable
      (List.range' 9000 1000)
      ⟨q, List.mem_range'_1.mpr ⟨hq1, by omega⟩, hqb⟩
    obtain ⟨hmem, hbind, -⟩ :=
      scan_ports_eq_some env.net.bindable (List.range' 9000 1000) p hp
    rw [List.mem_range'_1] at hmem
    have hmain := new_scan_case env config s tr p hsess hprobe hlp hp
      (by omega) hbind
    exact ⟨p, hmain.1, by omega, hmain.2.2⟩

/-- `pwCfg` with a nonzero preferred local port. -/
def portCfg : SshTunnelConfig := { pwCfg with local_port := some 9500 }

/-- Witness for the amended C4 at a concrete input: preferred bindable
port 9500 is committed, returned, and is the bound port. -/
theorem C4_amended_local_port_witness :
    (SshTunnel.new allFreeEnv portCfg).1 = .ok ⟨9500, false⟩ ∧
    (SshTunnel.new allFreeEnv portCfg).2.boundAtReturn = some 9500 := by
  have h := C4_amended_local_port allFreeEnv portCfg ⟨true⟩
    [SshAction.connect "bastion" 22, SshAction.handshake,
      SshAction.passwordAuth "user" "pw", SshAction.checkAuthenticated]
    rfl rfl
  have h2 := h.1 9500 rfl (by decide) rfl
  exact ⟨h2.1, h2.2.2⟩

/-! ## Claim C9: the stop flag -/

/-- Once the flag is true, no operation produces another rising edge. -/
theorem risingEdges_true (ops : List StopOp) : risingEdges true ops = 0 := by
  induction ops with
  | nil => rfl
  | cons op ops ih => cases op <;> simp [risingEdges, applyStopOp, ih]

/-- Along any sequence of the program's flag operations, the flag goes
`false → true` at most once. -/
theorem risingEdges_le_one (b : Bool) (ops : List StopOp) :
    risingEdges b ops ≤ 1 := by
  induction ops generalizing b with
  | nil => simp [risingEdges]
  | cons op ops ih =>
    cases b <;> cases op <;>
      simp [risingEdges, applyStopOp, risingEdges_true, ih]

/-- Every tunnel returned by `SshTunnel::new` starts with the stop flag
`false`. -/
theorem new_ok_stop_signal (env : TunnelEnv) (config : SshTunnelConfig)
    (t : SshTunnel) (h : (SshTunnel.new env config).1 = .ok t) :
    t.stop_signal = false := by
  rcases hs : create_ssh_session env.ssh config with ⟨res, tr⟩
  rcases res with e' | s
  · simp [SshTunnel.new, hs] at h
  · by_cases hp : env.probeOk
    · rcases hlp : config.local_port with _ | p
      · rcases hb : bindPort env.net
            ((find_available_port env.net.bindable).2.getD 9000)
            with _ | actual <;>
          simp_all [SshTunnel.new] <;> simp [← h]
      · rcases hb : bindPort env.net p with _ | actual <;>
          simp_all [SshTunnel.new] <;> simp [← h]
    · simp [SshTunnel.new, hs, hp] at h

/-- Claim C9: the stop flag starts `false` at creation; no operation of
the program stores `false` (the accept loop only loads, destruction
stores `true`); destruction is idempotent; and along any sequence of
program operations the flag transitions `false → true` at most once. -/
theorem C9_stop_flag_monotone (env : TunnelEnv) (config : SshTunnelConfig)
    (t u : SshTunnel) (ops : List StopOp)
    (hnew : (SshTunnel.new env config).1 = .ok t) :
    t.stop_signal = false ∧
    (∀ b op, applyStopOp b op = false → b = false) ∧
    (u.drop.1.stop_signal = true ∧ u.drop.2 = StopOp.storeTrue) ∧
    u.drop.1.drop.1 = u.drop.1 ∧
    risingEdges t.stop_signal ops ≤ 1 := by
  refine ⟨new_ok_stop_signal env config t hnew, ?_, ⟨rfl, rfl⟩, rfl,
    risingEdges_le_one _ ops⟩
  intro b op hop
  cases b
  · rfl
  · cases op <;> simp [applyStopOp] at hop

/-- Witness for C9 at concrete inputs: a freshly created tunnel has the
flag `false`, and over the concrete operation sequence load, store-true,
load, store-true there is exactly one rising edge. -/
theorem C9_stop_flag_monotone_witness :
    (SshTunnel.mk 9000 false).stop_signal = false ∧
    risingEdges (SshTunnel.mk 9000 false).stop_signal
      [StopOp.load, StopOp.storeTrue, StopOp.load, StopOp.storeTrue] ≤ 1 := by
  have h := C9_stop_flag_monotone allFreeEnv pwCfg ⟨9000, false⟩ ⟨9000, false⟩
    [StopOp.load, StopOp.storeTrue, StopOp.load, StopOp.storeTrue] rfl
  exact ⟨h.1, h.2.2.2.2⟩

/-! ## Claim C10: accept-loop error exit -/

/-- If the stop flag stays false and the next `m` accepts do not error
(each yields a connection or would block), and the one after errors, the
loop exits with `acceptError` after those `m` polls, releasing the
listener. -/
theorem start_forwarding_loop_err (stopVal : Nat → Bool)
    (accepts : Nat → AcceptRes) (hstop : ∀ i, stopVal i = false) :
    ∀ (m : Nat) (st : LoopState),
      (∀ i, i < m → accepts (st.iter + i) ≠ AcceptRes.err) →
      accepts (st.iter + m) = AcceptRes.err →
      ∃ sp, start_forwarding_loop stopVal accepts (m + 1) st =
        some (.acceptError, ⟨st.iter + m, sp, false⟩) := by
  intro m
  induction m with
  | zero =>
    intro st _ herr
    rw [Nat.add_zero] at herr
    exact ⟨st.spawned, by simp [start_forwarding_loop, hstop st.iter, herr]⟩
  | succ m ih =>
    intro st hpre herr
    have h0 : accepts st.iter ≠ AcceptRes.err := by
      simpa using hpre 0 (Nat.succ_pos m)
    have hshift : ∀ i, i < m → accepts (st.iter + 1 + i) ≠ AcceptRes.err :=
      fun i hi => by
        have := hpre (i + 1) (by omega)
        simpa [Nat.add_assoc, Nat.add_comm 1 i] using this
    have herr' : accepts (st.iter + 1 + m) = AcceptRes.err := by
      simpa [Nat.add_assoc, Nat.add_comm 1 m] using herr
    rcases hc : accepts st.iter with _ | _ | _
    · obtain ⟨sp, hsp⟩ := ih
        { st with iter := st.iter + 1, spawned := st.spawned + 1 }
        hshift herr'
      refine ⟨sp, ?_⟩
      simp only [start_forwarding_loop, hstop st.iter, hc]
      simpa [Nat.add_assoc, Nat.add_comm 1 m] using hsp
    · obtain ⟨sp, hsp⟩ := ih { st with iter := st.iter + 1 } hshift herr'
      refine ⟨sp, ?_⟩
      simp only [start_forwarding_loop, hstop st.iter, hc]
      simpa [Nat.add_assoc, Nat.add_comm 1 m] using hsp
    · exact absurd hc h0

/-- Claim C10: with a live tunnel handle committed to port `p`, if
`accept()` returns a non-WouldBlock error at the k-th poll while the stop
flag is still false, the accept loop exits with reason `acceptError` and
the listener is released (`listenerHeld = false`), yet no error reaches
the tunnel owner: `start_forwarding` returns unit and the handle still
reports `p` as its local port. -/
theorem C10_accept_error_exits (env : TunnelEnv)
    (config : SshTunnelConfig) (s : Session) (tr : List SshAction)
    (stopVal : Nat → Bool) (accepts : Nat → AcceptRes) (k p : Nat)
    (hsess : create_ssh_session env.ssh config = (.ok s, tr))
    (hprobe : env.probeOk = true)
    (hlp : config.local_port = some p) (hpz : p ≠ 0)
    (hbind : env.net.bindable p = true)
    (hstop : ∀ i, stopVal i = false)
    (hpre : ∀ i, i < k → accepts i ≠ AcceptRes.err)
    (herr : accepts k = AcceptRes.err) :
    (SshTunnel.new env config).1 = .ok ⟨p, false⟩ ∧
    (SshTunnel.new env config).2.boundAtReturn = some p ∧
    (∃ sp, start_forwarding_loop stopVal accepts (k + 1) ⟨0, 0, true⟩ =
      some (.acceptError, ⟨k, sp, false⟩)) ∧
    stopVal k = false ∧
    (∀ o, start_forwarding o = ()) ∧
    (SshTunnel.mk p false).local_port = p := by
  have hloop := start_forwarding_loop_err stopVal accepts hstop k
    ⟨0, 0, true⟩ (fun i hi => by simpa using hpre i hi)
    (by simpa using herr)
  refine ⟨?_, ?_, by simpa using hloop, hstop k, fun _ => rfl, rfl⟩ <;>
    simp [SshTunnel.new, hsess, hprobe, hlp, bindPort, hpz, hbind]

/-- Witness for C10 at concrete inputs: the accept error at the third
poll (after two WouldBlocks) exits the loop and releases the listener,
with the stop flag never set. -/
theorem C10_accept_error_exits_witness :
    (SshTunnel.new allFreeEnv portCfg).1 = .ok ⟨9500, false⟩ ∧
    ∃ sp, start_forwarding_loop (fun _ => false)
        (fun i => if i < 2 then AcceptRes.wouldBlock else AcceptRes.err)
        3 ⟨0, 0, true⟩ =
      some (.acceptError, ⟨2, sp, false⟩) := by
  have h := C10_accept_error_exits allFreeEnv portCfg ⟨true⟩
    [SshAction.connect "bastion" 22, SshAction.handshake,
      SshAction.passwordAuth "user" "pw", SshAction.checkAuthenticated]
    (fun _ => false)
    (fun i => if i < 2 then AcceptRes.wouldBlock else AcceptRes.err)
    2 9500 rfl rfl rfl (by decide) rfl (fun _ => rfl)
    (fun i hi => by simp [hi]) (by simp)
  exact ⟨h.1, h.2.2.1⟩

/-! ## Claims C2 and C3: the pump loop -/

/-- `pumpTail` only ever appends to the event log. -/
theorem pumpTail_log_mono (env : PumpEnv) (st : PumpSt) (progress : Bool) :
    ∃ rest, (pumpTail env st progress).2.log = st.log ++ rest := by
  by_cases he : env.chanEof st.ce
  · exact ⟨[], by simp [pumpTail, he]⟩
  · cases progress
    · exact ⟨[PumpEvent.slept (if st.idle + 1 > 100 then 10 else 1)],
        by simp [pumpTail, he]⟩
    · exact ⟨[], by simp [pumpTail, he]⟩

/-- `pumpDir2` only ever appends to the event log. -/
theorem pumpDir2_log_mono (env : PumpEnv) (st : PumpSt) (progress : Bool) :
    ∃ rest, (pumpDir2 env st progress).2.log = st.log ++ rest := by
  rcases hcr : env.chanRead st.cr with bs | _ | _ | _
  · rcases bs with _ | ⟨b, bs⟩
    · by_cases he : env.chanEof st.ce
      · exact ⟨[], by simp [pumpDir2, hcr, he]⟩
      · obtain ⟨r, hr⟩ := pumpTail_log_mono env
          { st with
            cr := st.cr + 1
            ce := st.ce + 1 } progress
        exact ⟨r, by simpa [pumpDir2, hcr, he] using hr⟩
    · rcases hsw : env.streamWrite st.sw with _ | _ | _
      · obtain ⟨r, hr⟩ := pumpTail_log_mono env
          { st with
            cr := st.cr + 1
            sw := st.sw + 1
            log := st.log ++ [PumpEvent.wroteStream (b :: bs)]
            idle := 0 } true
        exact ⟨[PumpEvent.wroteStream (b :: bs)] ++ r,
          by simpa [pumpDir2, hcr, hsw] using hr⟩
      · exact ⟨[], by simp [pumpDir2, hcr, hsw]⟩
      · exact ⟨[], by simp [pumpDir2, hcr, hsw]⟩
  · obtain ⟨r, hr⟩ := pumpTail_log_mono env { st with cr := st.cr + 1 }
      progress
    exact ⟨r, by simpa [pumpDir2, hcr] using hr⟩
  · obtain ⟨r, hr⟩ := pumpTail_log_mono env { st with cr := st.cr + 1 }
      progress
    exact ⟨r, by simpa [pumpDir2, hcr] using hr⟩
  · exact ⟨[], by simp [pumpDir2, hcr]⟩

/-- Pump environment for the C2 counterexample: the local peer has closed
(every local read returns 0 bytes) while the channel has pending data (a
channel read would deliver bytes 5, 6, 7). -/
def localClosedEnv : PumpEnv :=
  { streamRead := fun _ => .bytes []
    chanRead := fun _ => .bytes [5, 6, 7]
    chanEof := fun _ => false
    streamWrite := fun _ => .ok
    chanWrite := fun _ => .ok }

/-- Counterexample to claim C2: the local peer closes while the channel
still has undelivered bytes (its next read would return 5, 6, 7), yet the
pump terminates cleanly having never read the channel (`cr = 0`) and
having delivered nothing to the local socket — the remaining target
bytes are not drained. -/
theorem C2_counterexample :
    localClosedEnv.chanRead 0 = ChanReadRes.bytes [5, 6, 7] ∧
    (copy_bidirectional localClosedEnv 5).1 = PumpRes.ok ∧
    (copy_bidirectional localClosedEnv 5).2.cr = 0 ∧
    streamDeliveries (copy_bidirectional localClosedEnv 5).2.log = [] :=
  ⟨rfl, rfl, rfl, rfl⟩

/-- Claim C2 amended: when the local socket read returns zero bytes, the
forwarder immediately signals end-of-data on the channel, closes it,
waits for the close, and returns cleanly — without reading the channel
again and without delivering any remaining channel bytes to the local
socket. -/
theorem C2_amended_local_close_no_drain (env : PumpEnv) (st : PumpSt)
    (h : env.streamRead st.sr = StreamReadRes.bytes []) :
    pumpIter env st =
      (.done .ok,
       { st with
          sr := st.sr + 1
          log := st.log ++ [PumpEvent.sentEof, PumpEvent.closedChan,
            PumpEvent.waitedClose] }) ∧
    (pumpIter env st).2.cr = st.cr ∧
    streamDeliveries (pumpIter env st).2.log =
      streamDeliveries st.log := by
  refine ⟨by simp [pumpIter, h], by simp [pumpIter, h], ?_⟩
  simp [pumpIter, h, streamDeliveries]

/-- Witness for the amended C2 at a concrete input: from the initial
state with the local peer closed, one iteration returns cleanly with the
terminal channel actions only, no channel read, no local delivery. -/
theorem C2_amended_local_close_no_drain_witness :
    pumpIter localClosedEnv initPumpSt =
      (.done .ok,
       { initPumpSt with
          sr := 1
          log := [PumpEvent.sentEof, PumpEvent.closedChan,
            PumpEvent.waitedClose] }) ∧
    (pumpIter localClosedEnv initPumpSt).2.cr = 0 ∧
    streamDeliveries (pumpIter localClosedEnv initPumpSt).2.log = [] := by
  have h := C2_amended_local_close_no_drain localClosedEnv initPumpSt rfl
  exact ⟨h.1, h.2.1, h.2.2⟩

/-- Pump environment for the C3 counterexample: nothing to read locally,
the channel delivers one byte, and the local socket's send buffer is full
(its non-blocking `write_all` fails with `WouldBlock`). -/
def fullBufferEnv : PumpEnv :=
  { streamRead := fun _ => .wouldBlock
    chanRead := fun _ => .bytes [9]
    chanEof := fun _ => false
    streamWrite := fun _ => .wouldBlock
    chanWrite := fun _ => .ok }

/-- Counterexample to claim C3: the channel read returns one byte, but
the local socket's send buffer is full, so its `write_all` fails with
`WouldBlock` and the pump aborts the connection with an I/O error,
delivering none of the bytes — a full local-socket send buffer does
abort the connection rather than being retried. -/
theorem C3_counterexample :
    fullBufferEnv.chanRead 0 = ChanReadRes.bytes [9] ∧
    fullBufferEnv.streamWrite 0 = WriteRes.wouldBlock ∧
    (copy_bidirectional fullBufferEnv 5).1 = PumpRes.ioError ∧
    streamDeliveries (copy_bidirectional fullBufferEnv 5).2.log = [] :=
  ⟨rfl, rfl, rfl, rfl⟩

/-- Claim C3 amended: in a pump iteration where the channel read returns
N>0 bytes, all N bytes are written to the local socket and progress is
recorded only when the non-blocking local write succeeds; when that write
fails (including `WouldBlock` from a full send buffer) the connection is
aborted with an I/O error instead of retried.  Blocking is enabled only
around the channel write: a scoped set-blocking-true, write, flush,
set-blocking-false sequence. -/
theorem C3_amended_write_handling (env : PumpEnv) (st : PumpSt)
    (b : Nat) (bs : List Nat) :
    (env.chanRead st.cr = ChanReadRes.bytes (b :: bs) →
      env.streamWrite st.sw = WriteRes.ok →
      ∀ progress,
        (pumpDir2 env st progress).2.log =
          st.log ++ [PumpEvent.wroteStream (b :: bs)] ∧
        (pumpDir2 env st progress).2.idle = 0) ∧
    (env.chanRead st.cr = ChanReadRes.bytes (b :: bs) →
      env.streamWrite st.sw = WriteRes.wouldBlock →
      ∀ progress, (pumpDir2 env st progress).1 = .done .ioError ∧
        streamDeliveries (pumpDir2 env st progress).2.log =
          streamDeliveries st.log) ∧
    (env.streamRead st.sr = StreamReadRes.bytes (b :: bs) →
      env.chanWrite st.cw = WriteRes.ok →
      ∃ rest, (pumpIter env st).2.log =
        st.log ++ [PumpEvent.setBlocking true, PumpEvent.wroteChan (b :: bs),
          PumpEvent.setBlocking false] ++ rest) := by
  refine ⟨?_, ?_, ?_⟩
  · intro hcr hsw progress
    by_cases he : env.chanEof st.ce <;>
      simp [pumpDir2, pumpTail, hcr, hsw, he]
  · intro hcr hsw progress
    exact ⟨by simp [pumpDir2, hcr, hsw], by simp [pumpDir2, hcr, hsw]⟩
  · intro hsr hcw
    obtain ⟨r, hr⟩ := pumpDir2_log_mono env
      { st with
          sr := st.sr + 1
          cw := st.cw + 1
          log := (st.log ++ [PumpEvent.setBlocking true]) ++
            [PumpEvent.wroteChan (b :: bs), PumpEvent.setBlocking false]
          idle := 0 } true
    refine ⟨r, ?_⟩
    rw [show (pumpIter env st).2 = (pumpDir2 env
      { st with
          sr := st.sr + 1
          cw := st.cw + 1
          log := (st.log ++ [PumpEvent.setBlocking true]) ++
            [PumpEvent.wroteChan (b :: bs), PumpEvent.setBlocking false]
          idle := 0 } true).2 by simp [pumpIter, hsr, hcw], hr]
    simp

/-- Pump environment in which the local side feeds one byte to the
channel and the channel write succeeds. -/
def feedChanEnv : PumpEnv :=
  { streamRead := fun _ => .bytes [1]
    chanRead := fun _ => .wouldBlock
    chanEof := fun _ => false
    streamWrite := fun _ => .ok
    chanWrite := fun _ => .ok }

/-- Pump environment in which the channel delivers one byte and the
local write succeeds. -/
def okWriteEnv : PumpEnv :=
  { streamRead := fun _ => .wouldBlock
    chanRead := fun _ => .bytes [2]
    chanEof := fun _ => false
    streamWrite := fun _ => .ok
    chanWrite := fun _ => .ok }

/-- Witness for the amended C3 at concrete inputs: a successful local
write delivers the byte and resets the idle counter; a full send buffer
aborts with an I/O error; a local read feeding the channel produces the
scoped blocking-write event sequence. -/
theorem C3_amended_write_handling_witness :
    (pumpDir2 okWriteEnv initPumpSt false).2.log =
      [PumpEvent.wroteStream [2]] ∧
    (pumpDir2 okWriteEnv initPumpSt false).2.idle = 0 ∧
    (pumpDir2 fullBufferEnv initPumpSt false).1 = .done .ioError ∧
    streamDeliveries (pumpDir2 fullBufferEnv initPumpSt false).2.log =
      [] ∧
    ∃ rest, (pumpIter feedChanEnv initPumpSt).2.log =
      [PumpEvent.setBlocking true, PumpEvent.wroteChan [1],
        PumpEvent.setBlocking false] ++ rest := by
  have ha := C3_amended_write_handling okWriteEnv initPumpSt 2 []
  have hb := C3_amended_write_handling fullBufferEnv initPumpSt 9 []
  have hc := C3_amended_write_handling feedChanEnv initPumpSt 1 []
  refine ⟨?_, ?_, (hb.2.1 rfl rfl false).1, (hb.2.1 rfl rfl false).2, ?_⟩
  · simpa using (ha.1 rfl rfl false).1
  · exact (ha.1 rfl rfl false).2
  · simpa using hc.2.2 rfl rfl

end Redistal
